import Mathlib

/-!
Verification of the YOLO_IDE text-editor core (src/src/main.rs).

The Rust program is an `iced` application.  Its state-mutating core is the
`Editor` struct together with `Editor::update`, which processes `Message`
values (edit actions, New, Open, Save, and the async outcomes `FileOpened`
and `FileSaved`), plus the async helpers `load_file` and `save_file` and the
highlighter-extension resolution in `Editor::view`.

The embedding below translates that core directly.  External library
behaviour (iced's `text_editor::Content`, `rfd` file dialogs, `tokio::fs`)
is modelled explicitly: `Content` carries the document text, file dialogs
become `Option Path` parameters (none = cancelled), and the filesystem is an
association list of paths to contents together with a read-only set.
-/

/-- Filesystem paths, modelled as strings (Rust `PathBuf`). -/
abbrev EPath := String

/-- The `io::ErrorKind` classification carried by filesystem failures.
Modelled as the kinds the spec names plus a catch-all. -/
inductive ErrKind where
  | notFound
  | permissionDenied
  | otherKind
deriving Repr, DecidableEq

/-- `enum Error { DialogClosed, IOFailed(io::ErrorKind) }` (main.rs lines 52-56). -/
inductive Error where
  | dialogClosed
  | ioFailed (kind : ErrKind)
deriving Repr, DecidableEq

/-- The content-changing sub-actions of iced's `text_editor::Edit`. -/
inductive EditOp where
  | insert (c : Char)
  | paste (s : String)
  | enter
  | backspace
  | delete
deriving Repr, DecidableEq

/-- iced's `text_editor` action type: cursor/selection motions, mouse
actions, and content edits.  Only `edit` actions are classified as edits. -/
inductive EAction where
  | moveCursor
  | select
  | selectWord
  | selectLine
  | selectAll
  | click
  | drag
  | scroll
  | edit (op : EditOp)
deriving Repr, DecidableEq

/-- iced's `is_edit` classification: true exactly on `Edit(_)` actions. -/
def EAction.is_edit : EAction → Bool
  | .edit _ => true
  | _ => false

/-- iced's `text_editor::Content`, modelled by the text it holds. -/
structure Content where
  text : String
deriving Repr, DecidableEq

/-- `Content::new()`: empty content. -/
def Content.new : Content := ⟨""⟩

/-- `Content::with_text`: content holding exactly the given text. -/
def Content.with_text (s : String) : Content := ⟨s⟩

/-- `Content::perform`: applies an action to the content.  Cursor-only
actions leave the text unchanged; edits are modelled at the end of the
text (a simplification of the widget's cursor handling, irrelevant to the
claims, which never inspect text produced by `perform`). -/
def Content.perform (c : Content) (a : EAction) : Content :=
  match a with
  | .edit (.insert ch) => ⟨c.text.push ch⟩
  | .edit (.paste s) => ⟨c.text ++ s⟩
  | .edit .enter => ⟨c.text.push '\n'⟩
  | .edit .backspace => ⟨c.text.dropRight 1⟩
  | .edit .delete => c
  | _ => c

/-- iced's `highlighter::Theme`, abstracted to the variants the code names. -/
inductive HLTheme where
  | SolarizedDark
  | otherTheme
deriving Repr, DecidableEq

/-- `enum Message` (main.rs lines 41-50). -/
inductive Message where
  | edit (a : EAction)
  | new
  | openMsg
  | save
  | fileOpened (r : Except Error (EPath × String))
  | fileSaved (r : Except Error EPath)
  | themeChanged (t : HLTheme)
deriving Repr

/-- The async tasks the `update` loop can spawn via `Command::perform`. -/
inductive EditorTask where
  | loadFile (p : EPath)
  | pickFile
  | saveFile (p : Option EPath) (text : String)
deriving Repr, DecidableEq

/-- `iced::Command<Message>` as produced by `update`: either no command or
one spawned async task. -/
inductive Cmd where
  | none
  | performTask (t : EditorTask)
deriving Repr, DecidableEq

/-- `struct Editor` (main.rs lines 33-39). -/
structure Editor where
  path : Option EPath
  content : Content
  theme : HLTheme
  is_dirty : Bool
  error : Option Error
deriving Repr, DecidableEq

/-- The initial editor state built in `Application::new` (main.rs lines
64-78): no path, empty content, SolarizedDark theme, dirty, no error. -/
def Editor.init : Editor :=
  { path := none
    content := Content.new
    theme := .SolarizedDark
    is_dirty := true
    error := none }

/-- `Editor::update` (main.rs lines 84-146), translated branch by branch. -/
def Editor.update (e : Editor) (m : Message) : Editor × Cmd :=
  match m with
  | .edit a =>
      ({ e with
          is_dirty := e.is_dirty || a.is_edit
          content := e.content.perform a
          error := Option.none },
        .none)
  | .new =>
      ({ e with
          path := Option.none
          content := Content.new
          is_dirty := true },
        .none)
  | .openMsg =>
      (e, .performTask .pickFile)
  | .fileOpened (.ok (path, content)) =>
      ({ e with
          path := some path
          content := Content.with_text content
          is_dirty := false },
        .none)
  | .fileOpened (.error err) =>
      ({ e with error := some err }, .none)
  | .save =>
      (e, .performTask (.saveFile e.path e.content.text))
  | .fileSaved (.ok path) =>
      ({ e with path := some path, is_dirty := false }, .none)
  | .fileSaved (.error err) =>
      ({ e with error := some err }, .none)
  | .themeChanged t =>
      ({ e with theme := t }, .none)

/-- Applying a whole message sequence through `update`, keeping the state. -/
def applyMsgs (e : Editor) (ms : List Message) : Editor :=
  ms.foldl (fun s m => (s.update m).1) e

/-- Sanity check that the embedding evaluates: New forces the dirty flag. -/
theorem sanity_update_new :
    (Editor.init.update .new).1.is_dirty = true := rfl

/-- The Filesystem collaborator: a map from paths to contents plus a set of
paths on which writes fail with a permission error. -/
structure FS where
  files : List (EPath × String)
  readonly : List EPath
deriving Repr, DecidableEq

/-- `tokio::fs::read_to_string`: the file's contents, or an `io::ErrorKind`
(not-found when the path is absent from the filesystem). -/
def FS.read (fs : FS) (p : EPath) : Except ErrKind String :=
  match fs.files.lookup p with
  | some s => .ok s
  | none => .error .notFound

/-- `tokio::fs::write`: whole-file overwrite, failing with permission-denied
on read-only paths, otherwise returning the updated filesystem. -/
def FS.write (fs : FS) (p : EPath) (s : String) : Except ErrKind FS :=
  if p ∈ fs.readonly then .error .permissionDenied
  else .ok ⟨(p, s) :: fs.files, fs.readonly⟩

/-- `load_file` (main.rs lines 277-285): read the file, mapping a
filesystem error kind into `Error::IOFailed`, else return the path paired
with the contents. -/
def load_file (fs : FS) (path : EPath) : Except Error (EPath × String) :=
  match fs.read path with
  | .error k => .error (.ioFailed k)
  | .ok contents => .ok (path, contents)

/-- `pick_file` (main.rs lines 267-275): the open dialog's outcome is the
`dialog` parameter (`none` means the user cancelled, giving
`Error::DialogClosed`); a chosen path is loaded with `load_file`. -/
def pick_file (fs : FS) (dialog : Option EPath) : Except Error (EPath × String) :=
  match dialog with
  | none => .error .dialogClosed
  | some p => load_file fs p

/-- The write step shared by both branches of `save_file` (main.rs lines
297-301): write the text, mapping a failure kind into `Error::IOFailed`. -/
def save_write (fs : FS) (p : EPath) (text : String) : Except Error EPath × FS :=
  match fs.write p text with
  | .error k => (.error (.ioFailed k), fs)
  | .ok fs2 => (.ok p, fs2)

/-- `save_file` (main.rs lines 287-302): with a known path, write directly;
otherwise consult the save dialog (`dialog = none` is cancellation, which
resolves to `Error::DialogClosed` before any write).  Returns the outcome
together with the (possibly updated) filesystem. -/
def save_file (fs : FS) (dialog : Option EPath) (path : Option EPath) (text : String) :
    Except Error EPath × FS :=
  match path with
  | some p => save_write fs p text
  | none =>
      match dialog with
      | none => (.error .dialogClosed, fs)
      | some p => save_write fs p text

/-- Splits a character list at every occurrence of the separator. -/
def splitOnChar (sep : Char) : List Char → List (List Char)
  | [] => [[]]
  | c :: cs =>
      let r := splitOnChar sep cs
      if c = sep then [] :: r
      else
        match r with
        | [] => [[c]]
        | h :: t => (c :: h) :: t

/-- Rust `Path::file_name` on the string model: the last path component,
ignoring empty components and `.`, and `None` when the path ends in `..`
or has no component. -/
def EPath.file_name (p : EPath) : Option (List Char) :=
  let comps := (splitOnChar '/' p.toList).filter
    (fun c => !(c.isEmpty || c == ['.']))
  match comps.getLast? with
  | none => none
  | some c => if c == ['.', '.'] then none else some c

/-- Rust `Path::extension` on a file name: the substring after the last
dot, and `None` when there is no dot or the only role of the last dot is
to begin a hidden file name (last dot at index 0). -/
def extensionOfName (name : List Char) : Option String :=
  if '.' ∈ name then
    let after := (name.reverse.takeWhile (fun c => c != '.')).reverse
    if name.length = after.length + 1 then none
    else some (String.mk after)
  else none

/-- Rust `Path::extension` on the string model of paths. -/
def EPath.extension (p : EPath) : Option String :=
  match EPath.file_name p with
  | none => none
  | some name => extensionOfName name

/-- The highlighter extension computed in `Editor::view` (main.rs lines
171-176): `path.extension()` when the path is present and has one,
otherwise the `"txt"` fallback.  (`OsStr::to_str` always succeeds in the
string model of paths.) -/
def highlighterExtension (path : Option EPath) : String :=
  ((path.bind fun p => EPath.extension p).getD "txt")

/-- Sanity: extensions resolve as Rust's `Path::extension` does. -/
theorem sanity_extension :
    EPath.extension "src/main.rs" = some "rs"
  ∧ EPath.extension ".gitignore" = none
  ∧ EPath.extension "a.b/c" = none
  ∧ EPath.extension "archive.tar.gz" = some "gz" := by
  refine ⟨rfl, rfl, rfl, rfl⟩

/-- Spec-side classification (from the claim's words): the messages after
which dirty is false — successful `FileOpened` and successful `FileSaved`. -/
def resetsDirty : Message → Bool
  | .fileOpened (.ok _) => true
  | .fileSaved (.ok _) => true
  | _ => false

/-- Spec-side classification (from the claim's words): the messages after
which dirty is true — content-changing edits (`is_edit`), and `New`, which
produces a fresh unsaved document. -/
def forcesDirty : Message → Bool
  | .edit a => a.is_edit
  | .new => true
  | _ => false

/-- Spec-side dirty flag: starting from `d`, dirty is true exactly when a
dirty-forcing message (content edit or New) occurred after the last
dirty-resetting message (successful Open or Save); with no resetting
message it is `d` unless a forcing message occurred. -/
def dirtySpec (d : Bool) (ms : List Message) : Bool :=
  ms.foldl
    (fun cur m => if resetsDirty m then false else if forcesDirty m then true else cur) d

/-- One `update` step changes the dirty flag exactly as the spec-side
classification prescribes. -/
theorem update_dirty_step (e : Editor) (m : Message) :
    (e.update m).1.is_dirty =
      if resetsDirty m then false else if forcesDirty m then true else e.is_dirty := by
  cases m with
  | edit a =>
      have hb : ∀ d b : Bool, (d || b) = if b = true then true else d := by
        intro d b
        cases b <;> simp
      simp only [Editor.update, resetsDirty, forcesDirty]
      rw [if_neg (by simp)]
      exact hb e.is_dirty a.is_edit
  | new => simp [Editor.update, resetsDirty, forcesDirty]
  | openMsg => simp [Editor.update, resetsDirty, forcesDirty]
  | save => simp [Editor.update, resetsDirty, forcesDirty]
  | themeChanged t => simp [Editor.update, resetsDirty, forcesDirty]
  | fileOpened r =>
      cases r with
      | ok v =>
          obtain ⟨p, s⟩ := v
          simp [Editor.update, resetsDirty, forcesDirty]
      | error err => simp [Editor.update, resetsDirty, forcesDirty]
  | fileSaved r =>
      cases r with
      | ok p => simp [Editor.update, resetsDirty, forcesDirty]
      | error err => simp [Editor.update, resetsDirty, forcesDirty]

/-- C1: over every message sequence applied via `update`, the dirty flag
equals the spec-side computation: it becomes true when a content-changing
(`is_edit`) Edit action is applied, false immediately after a successful
FileOpened and after a successful FileSaved outcome, and is unchanged by
cursor-only Edit actions — so dirty is true iff a content-changing edit
(or New, which forces an unsaved document) occurred since the last
successful Open/Save, or, with no such Open/Save, since a dirty start.
The conjuncts also state the four single-step facts directly. -/
theorem dirty_flag_matches_spec (e : Editor) (ms : List Message)
    (a : EAction) (p : EPath) (s : String) (q : EPath) :
    (applyMsgs e ms).is_dirty = dirtySpec e.is_dirty ms
  ∧ (e.update (.edit a)).1.is_dirty = (e.is_dirty || a.is_edit)
  ∧ (e.update (.fileOpened (.ok (p, s)))).1.is_dirty = false
  ∧ (e.update (.fileSaved (.ok q))).1.is_dirty = false := by
  refine ⟨?_, by simp [Editor.update], by simp [Editor.update], by simp [Editor.update]⟩
  induction ms generalizing e with
  | nil => rfl
  | cons m rest ih =>
      have h1 : applyMsgs e (m :: rest) = applyMsgs (e.update m).1 rest := rfl
      have h2 : dirtySpec e.is_dirty (m :: rest) =
          dirtySpec
            (if resetsDirty m then false else if forcesDirty m then true else e.is_dirty)
            rest := rfl
      rw [h1, h2, ← update_dirty_step e m]
      exact ih _

/-- C2: last-writer-wins — after applying an Edit that inserts a character
and then a successful `FileOpened` outcome carrying `(p, s)`, the document
text is exactly `s` (the intervening edit is discarded), the path is `p`,
and the dirty flag is false. -/
theorem open_result_overwrites_pending_edit (e : Editor) (c : Char) (p : EPath) (s : String) :
    (((e.update (.edit (.edit (.insert c)))).1).update (.fileOpened (.ok (p, s)))).1.content.text
        = s
  ∧ (((e.update (.edit (.edit (.insert c)))).1).update (.fileOpened (.ok (p, s)))).1.path
        = some p
  ∧ (((e.update (.edit (.edit (.insert c)))).1).update (.fileOpened (.ok (p, s)))).1.is_dirty
        = false :=
  ⟨rfl, rfl, rfl⟩

/-- C3: open-failure atomicity — a `FileOpened(Err e)` outcome sets the
error field to the delivered error and leaves content, path, and dirty
untouched; and `load_file` turns a filesystem read failure of kind `k`
into `Error.ioFailed k`. -/
theorem open_failure_preserves_document (e : Editor) (err : Error)
    (fs : FS) (p : EPath) (k : ErrKind) :
    ((e.update (.fileOpened (.error err))).1.error = some err
      ∧ (e.update (.fileOpened (.error err))).1.content = e.content
      ∧ (e.update (.fileOpened (.error err))).1.path = e.path
      ∧ (e.update (.fileOpened (.error err))).1.is_dirty = e.is_dirty)
  ∧ (fs.read p = .error k → load_file fs p = .error (.ioFailed k)) := by
  refine ⟨⟨rfl, rfl, rfl, rfl⟩, ?_⟩
  intro h
  simp [load_file, h]

/-- Witness for C3 at a concrete state: a not-found read on the empty
filesystem and the error field after the failed outcome. -/
theorem open_failure_preserves_document_witness :
    load_file ⟨[], []⟩ "a.txt" = .error (.ioFailed .notFound)
  ∧ (Editor.init.update (.fileOpened (.error (.ioFailed .notFound)))).1.error
        = some (.ioFailed .notFound) :=
  ⟨(open_failure_preserves_document Editor.init (.ioFailed .notFound)
      ⟨[], []⟩ "a.txt" .notFound).2 rfl,
   (open_failure_preserves_document Editor.init (.ioFailed .notFound)
      ⟨[], []⟩ "a.txt" .notFound).1.1⟩

/-- C4: save cancellation atomicity — the Save message itself leaves the
state unchanged (it only spawns the save task with the current path and
text); `save_file` on a path-less document with a cancelled save dialog
resolves to `Err DialogClosed` without writing (the filesystem is returned
unchanged); and applying `FileSaved(Err DialogClosed)` leaves content,
path, and dirty unchanged while setting the error field to DialogClosed. -/
theorem save_cancel_atomicity (e : Editor) (fs : FS) (t : String) :
    (e.update .save).1 = e
  ∧ (e.update .save).2 = .performTask (.saveFile e.path e.content.text)
  ∧ save_file fs none none t = (.error .dialogClosed, fs)
  ∧ (e.update (.fileSaved (.error .dialogClosed))).1.content = e.content
  ∧ (e.update (.fileSaved (.error .dialogClosed))).1.path = e.path
  ∧ (e.update (.fileSaved (.error .dialogClosed))).1.is_dirty = e.is_dirty
  ∧ (e.update (.fileSaved (.error .dialogClosed))).1.error = some .dialogClosed :=
  ⟨rfl, rfl, rfl, rfl, rfl, rfl, rfl⟩

/-- C5: any content-changing Edit action (`is_edit = true`) applied via
`update` leaves the error field cleared to `none`. -/
theorem content_edit_clears_error (e : Editor) (a : EAction) (h : a.is_edit = true) :
    (e.update (.edit a)).1.error = none := rfl

/-- Witness for C5: a Backspace edit on the initial state clears the error. -/
theorem content_edit_clears_error_witness :
    (Editor.init.update (.edit (.edit .backspace))).1.error = none :=
  content_edit_clears_error Editor.init (.edit .backspace) rfl

/-- C6: the New message is handled synchronously with no follow-up
command: it produces empty content, no path, and a true dirty flag. -/
theorem new_resets_document (e : Editor) :
    (e.update .new).1.path = none
  ∧ (e.update .new).1.content.text = ""
  ∧ (e.update .new).1.is_dirty = true
  ∧ (e.update .new).2 = .none :=
  ⟨rfl, rfl, rfl, rfl⟩

/-- C7: save/open round trip — when `save_file` on a known path `p`
succeeds, `load_file p` on the resulting filesystem returns `Ok (p, t)`
with exactly the saved text. -/
theorem save_then_load_round_trip (fs : FS) (dialog : Option EPath) (p : EPath) (t : String)
    (h : (save_file fs dialog (some p) t).1 = .ok p) :
    load_file (save_file fs dialog (some p) t).2 p = .ok (p, t) := by
  by_cases hp : p ∈ fs.readonly
  · simp [save_file, save_write, FS.write, hp] at h
  · simp [save_file, save_write, FS.write, hp, load_file, FS.read]

/-- Witness for C7: saving "hello" to "f.txt" on the empty filesystem and
loading it back. -/
theorem save_then_load_round_trip_witness :
    load_file (save_file ⟨[], []⟩ none (some "f.txt") "hello").2 "f.txt"
        = .ok ("f.txt", "hello") :=
  save_then_load_round_trip ⟨[], []⟩ none "f.txt" "hello" rfl

/-- C8: language resolution — the extension string handed to the
highlighter is the path's case-sensitive extension substring when the path
is present and has one, and the plain-text identifier "txt" when the path
is absent or has no extension.  (The third fallback in the claim, an
extension not representable as a string, cannot arise in the string model
of paths, where `OsStr::to_str` always succeeds.) -/
theorem language_resolution (p : EPath) (ext : String) :
    highlighterExtension none = "txt"
  ∧ (EPath.extension p = some ext → highlighterExtension (some p) = ext)
  ∧ (EPath.extension p = none → highlighterExtension (some p) = "txt") := by
  refine ⟨rfl, ?_, ?_⟩ <;> intro h <;> simp [highlighterExtension, h]

/-- Witness for C8: a lowercase `.rs` path resolves to "rs" and an
extension-less path falls back to "txt". -/
theorem language_resolution_witness :
    highlighterExtension (some "src/main.rs") = "rs"
  ∧ highlighterExtension (some "README") = "txt" :=
  ⟨(language_resolution "src/main.rs" "rs").2.1 rfl,
   (language_resolution "README" "txt").2.2 rfl⟩

/-- C9: every Edit action — cursor-only motions and selections included —
unconditionally resets the error field to `none` when applied via `update`. -/
theorem any_edit_clears_error (e : Editor) (a : EAction) :
    (e.update (.edit a)).1.error = none := rfl

/-- C10: successful I/O outcomes and New never touch the error field —
`FileOpened(Ok ..)`, `FileSaved(Ok ..)`, and New all leave it exactly as
it was. -/
theorem success_outcomes_preserve_error (e : Editor) (p : EPath) (s : String) (q : EPath) :
    (e.update (.fileOpened (.ok (p, s)))).1.error = e.error
  ∧ (e.update (.fileSaved (.ok q))).1.error = e.error
  ∧ (e.update .new).1.error = e.error :=
  ⟨rfl, rfl, rfl⟩
